import Mathlib

/-!
Verification of the authentication/session core of the `smartschool_mcp`
repository (`src/smartschool/session.py`, `src/smartschool/credentials.py`,
`src/smartschool/exceptions.py`).

The Python code is shallowly embedded: HTTP traffic is modelled by a script
(a list of answers, one consumed per request issued, each answer either a
final `Response` after redirects or a transport-level exception), Python
exceptions become an explicit error type, Python dicts become association
lists with overwrite-on-insert, and the HTML-form extraction helper
(`get_all_values_from_form`, whose module is not part of the embedded
sources) is abstracted by letting each scripted response carry the list of
form inputs that extraction would return for it.
-/

/-! ### Python string primitives -/

/-- Is `needle` a prefix of `hay`? (helper for Python's `in` on strings). -/
def isPrefixL (needle : List Char) : List Char → Bool
  | [] => needle.isEmpty
  | c :: t =>
    match needle with
    | [] => true
    | a :: as => a == c && isPrefixL as t

/-- Does `hay` contain `needle` as a contiguous substring? -/
def containsL (needle : List Char) : List Char → Bool
  | [] => needle.isEmpty
  | c :: t => isPrefixL needle (c :: t) || containsL needle t

/-- Python's `needle in hay` on strings. -/
def strContains (hay needle : String) : Bool :=
  containsL needle.data hay.data

/-- Python's `s.endswith(suffix)` (structural model of `String.endsWith`). -/
def strEndsWith (s suffix : String) : Bool :=
  isPrefixL suffix.data.reverse s.data.reverse

/-- Python's `str.strip()` on a list of characters: drop whitespace from
both ends. -/
def stripChars (l : List Char) : List Char :=
  (((l.dropWhile Char.isWhitespace).reverse.dropWhile Char.isWhitespace).reverse)

/-- Python's `str.strip()`. -/
def pyStrip (s : String) : String :=
  String.mk (stripChars s.data)

/-- Python's `s.lstrip('/')`: remove all leading `'/'` characters. -/
def pyLstripSlash (s : String) : String :=
  String.mk (s.data.dropWhile (fun c => c == '/'))

/-- Python's `s.replace('/', '-')` (single-character replacement). -/
def pyReplaceSlashDash (s : String) : String :=
  String.mk (s.data.map (fun c => if c == '/' then '-' else c))

/-- Python truthiness of an optional string (`None` and `""` are falsy):
used for `if not input_name`, `if not self.creds.mfa`, `self.username or ""`. -/
def pyTruthy : Option String → Bool
  | none => false
  | some s => !(s == "")

/-! ### Credentials (`credentials.py`) -/

/-- The credential record used by `session.py`: `username`, `password`,
`main_url` and the verification secret.  The secret is the field the two
source revisions call `mfa` resp. `birth_date`; it is modelled as an
optional string (`none` models an absent attribute, covering the
`hasattr` check in `_complete_verification`). -/
structure Creds where
  username : String
  password : String
  main_url : String
  mfa : Option String
deriving DecidableEq, Repr

/-- `Credentials.validate` (credentials.py lines 19-36): each of the four
required fields is replaced by `(field or "").strip()`; the names of all
blank fields are collected, in declaration order, and a `RuntimeError`
interpolating that list is raised when it is non-empty.  The embedding
returns the list of offending names as the error value (the source raises
`RuntimeError(f"Please verify and correct these attributes: {error}")`). -/
def validateCredentials (username password main_url birth_date : Option String) :
    Except (List String) (String × String × String × String) :=
  let u := pyStrip (username.getD "")
  let p := pyStrip (password.getD "")
  let m := pyStrip (main_url.getD "")
  let b := pyStrip (birth_date.getD "")
  let error :=
    (if u == "" then ["username"] else []) ++
    (if p == "" then ["password"] else []) ++
    (if m == "" then ["main_url"] else []) ++
    (if b == "" then ["birth_date"] else [])
  if error.isEmpty then .ok (u, p, m, b) else .error error

/-! ### URL construction (`session.py` lines 408-418) -/

/-- `Smartschool._url`: `"https://" + self.creds.main_url`. -/
def baseUrl (main_url : String) : String :=
  "https://" ++ main_url

/-- `Smartschool.create_url`: `f"{self._url}/{endpoint.lstrip('/')}"`. -/
def create_url (main_url endpoint : String) : String :=
  baseUrl main_url ++ "/" ++ pyLstripSlash endpoint

/-! ### Python exceptions (`exceptions.py`, requests, json, RuntimeError) -/

/-- The exceptions that can cross the embedded code's boundaries.
`authError` is `SmartSchoolAuthenticationError`; `wrappedAuthError` is a
`SmartSchoolAuthenticationError` raised `from` a cause; `transport` and
`httpError` are `requests.exceptions.RequestException` and its
`HTTPError` subclass (the latter raised by `raise_for_status`);
`runtimeError` is Python's `RuntimeError`; `jsonDecodeError` is
`json.JSONDecodeError`. -/
inductive PyErr where
  | authError (msg : String)
  | wrappedAuthError (msg : String) (cause : PyErr)
  | transport (msg : String)
  | httpError (status : Nat) (url : String)
  | runtimeError (msg : String)
  | jsonDecodeError (msg : String)
  | otherError (msg : String)
deriving DecidableEq, Repr

/-- `isinstance(e, SmartSchoolAuthenticationError)`. -/
def isAuthErrorB : PyErr → Bool
  | .authError _ => true
  | .wrappedAuthError _ _ => true
  | _ => false

/-- `isinstance(e, requests.exceptions.RequestException)`. -/
def isRequestExceptionB : PyErr → Bool
  | .transport _ => true
  | .httpError _ _ => true
  | _ => false

/-- Python's `str(e)`, kept as the exception's message. -/
def pyStr : PyErr → String
  | .authError m => m
  | .wrappedAuthError m _ => m
  | .transport m => m
  | .httpError _ u => "HTTPError at " ++ u
  | .runtimeError m => m
  | .jsonDecodeError m => m
  | .otherError m => m

/-! ### HTTP transport model -/

/-- A `requests` response after redirect following: final status, final
URL, body text.  Because the HTML-form extraction helper
(`common.get_all_values_from_form`, not among the embedded sources) is a
pure function of the page, each response also carries what that helper
would return for the three selectors the session code uses: the
`login_form` inputs, the `account_verification_form` inputs, and the
fallback token-form inputs. -/
structure FormInput where
  name : Option String
  value : Option String
deriving DecidableEq, Repr

structure Response where
  status : Nat
  url : String
  text : String
  loginFormInputs : List FormInput := []
  verifFormInputs : List FormInput := []
  verifFormFallbackInputs : List FormInput := []
deriving DecidableEq, Repr

deriving instance DecidableEq for Except

/-- The transport state: the scripted answers still pending (each either a
final response or a `RequestException` message) plus the number of HTTP
requests issued so far. -/
structure HState where
  script : List (Except String Response)
  count : Nat
deriving DecidableEq, Repr

/-- Issue one HTTP request: consume the next scripted answer, counting the
round trip.  An exhausted script is a model artifact reported as a
non-request error. -/
def popScript (s : HState) : Except PyErr Response × HState :=
  match s.script with
  | [] => (.error (.otherError "model: script exhausted"), s)
  | .error m :: rest => (.error (.transport m), ⟨rest, s.count + 1⟩)
  | .ok r :: rest => (.ok r, ⟨rest, s.count + 1⟩)

/-- `Response.raise_for_status()`: raises `HTTPError` on 4xx/5xx. -/
def raiseForStatus (r : Response) : Except PyErr Unit :=
  if 400 ≤ r.status then .error (.httpError r.status r.url) else .ok ()

/-- `url.endswith(("/login", "/account-verification", "/2fa"))`. -/
def endsWithAuth (url : String) : Bool :=
  strEndsWith url "/login" || strEndsWith url "/account-verification" ||
    strEndsWith url "/2fa"

/-! ### JSON values and `json.loads` -/

/-- Parsed JSON (numbers restricted to integers, which the consumed
endpoints use). -/
inductive JValue where
  | null
  | bool (b : Bool)
  | num (n : Int)
  | str (s : String)
  | arr (elems : List JValue)
  | obj (flds : List (String × JValue))
deriving Repr

/-- Skip JSON whitespace. -/
def skipWs : List Char → List Char
  | [] => []
  | c :: t =>
    if c == ' ' || c == '\t' || c == '\n' || c == '\r' then skipWs t else c :: t

/-- Parse the remainder of a JSON string literal (after the opening
quote), handling the common escapes. -/
def parseStringLit : Nat → List Char → Option (String × List Char)
  | 0, _ => none
  | _, [] => none
  | fuel + 1, c :: t =>
    if c == '"' then some ("", t)
    else if c == '\\' then
      match t with
      | [] => none
      | e :: t2 =>
        let esc : Option Char :=
          if e == '"' then some '"'
          else if e == '\\' then some '\\'
          else if e == '/' then some '/'
          else if e == 'n' then some '\n'
          else if e == 't' then some '\t'
          else if e == 'r' then some '\r'
          else none
        match esc with
        | none => none
        | some ch => (parseStringLit fuel t2).map (fun p => (String.mk (ch :: p.1.data), p.2))
    else (parseStringLit fuel t).map (fun p => (String.mk (c :: p.1.data), p.2))

/-- Parse an optionally signed decimal integer. -/
def parseNum (l : List Char) : Option (Int × List Char) :=
  let (neg, l1) : Bool × List Char :=
    match l with
    | '-' :: t => (true, t)
    | _ => (false, l)
  let ds := l1.takeWhile Char.isDigit
  let rest := l1.drop ds.length
  if ds.isEmpty then none
  else
    let n : Nat := ds.foldl (fun acc c => acc * 10 + (c.toNat - 48)) 0
    some (if neg then -(n : Int) else (n : Int), rest)

/-- Insert into a JSON object, overwriting an existing key (Python dicts
keep the last occurrence of a duplicated key). -/
def jObjInsert (d : List (String × JValue)) (k : String) (v : JValue) :
    List (String × JValue) :=
  if d.any (fun p => p.1 == k) then
    d.map (fun p => if p.1 == k then (k, v) else p)
  else d ++ [(k, v)]

mutual

/-- Recursive-descent JSON value parser (fuel-indexed model of the
stdlib `json` scanner). -/
def parseValue : Nat → List Char → Option (JValue × List Char)
  | 0, _ => none
  | fuel + 1, l =>
    match skipWs l with
    | [] => none
    | c :: t =>
      if c == '"' then (parseStringLit (fuel + 1) t).map (fun p => (JValue.str p.1, p.2))
      else if c == '[' then (parseArrItems fuel t).map (fun p => (JValue.arr p.1, p.2))
      else if c == '{' then
        (parseObjItems fuel t).map
          (fun p => (JValue.obj (p.1.foldl (fun d q => jObjInsert d q.1 q.2) []), p.2))
      else if c == 't' then
        match t with
        | 'r' :: 'u' :: 'e' :: r => some (JValue.bool true, r)
        | _ => none
      else if c == 'f' then
        match t with
        | 'a' :: 'l' :: 's' :: 'e' :: r => some (JValue.bool false, r)
        | _ => none
      else if c == 'n' then
        match t with
        | 'u' :: 'l' :: 'l' :: r => some (JValue.null, r)
        | _ => none
      else (parseNum (c :: t)).map (fun p => (JValue.num p.1, p.2))

/-- Items of a JSON array, after the opening bracket. -/
def parseArrItems : Nat → List Char → Option (List JValue × List Char)
  | 0, _ => none
  | fuel + 1, l =>
    match skipWs l with
    | ']' :: r => some ([], r)
    | l' =>
      match parseValue fuel l' with
      | none => none
      | some (v, r) =>
        match skipWs r with
        | ',' :: r2 => (parseArrItems fuel r2).map (fun p => (v :: p.1, p.2))
        | ']' :: r2 => some ([v], r2)
        | _ => none

/-- Members of a JSON object, after the opening brace. -/
def parseObjItems : Nat → List Char → Option (List (String × JValue) × List Char)
  | 0, _ => none
  | fuel + 1, l =>
    match skipWs l with
    | '}' :: r => some ([], r)
    | '"' :: t =>
      match parseStringLit (fuel + 1) t with
      | none => none
      | some (k, r) =>
        match skipWs r with
        | ':' :: r2 =>
          match parseValue fuel r2 with
          | none => none
          | some (v, r3) =>
            match skipWs r3 with
            | ',' :: r4 => (parseObjItems fuel r4).map (fun p => ((k, v) :: p.1, p.2))
            | '}' :: r4 => some ([(k, v)], r4)
            | _ => none
        | _ => none
    | _ => none

end

/-- `json.loads`: parse a complete document, rejecting trailing garbage. -/
def jsonLoads (s : String) : Except String JValue :=
  match parseValue (s.length + 1) s.data with
  | none => .error "Expecting value"
  | some (v, rest) => if (skipWs rest).isEmpty then .ok v else .error "Extra data"

/-- Python `==` between a JSON value and a string. -/
def jStrEq : JValue → String → Bool
  | .str s, x => s == x
  | _, _ => false

/-- Python's `x in container` for a string `x` against a parsed JSON
value (list membership, dict key membership, substring on strings;
`TypeError` otherwise). -/
def pyIn (x : String) (container : JValue) : Except PyErr Bool :=
  match container with
  | .arr l => .ok (l.any (fun v => jStrEq v x))
  | .obj flds => .ok (flds.any (fun p => p.1 == x))
  | .str s => .ok (strContains s x)
  | _ => .error (.otherError "TypeError: argument is not iterable")

/-! ### Form data preparation (`_do_login`, `_complete_verification`) -/

/-- Insert into a Python dict modelled as an ordered association list:
an existing key keeps its position and gets the new value, a new key is
appended. -/
def dictInsert (d : List (String × Option String)) (k : String) (v : Option String) :
    List (String × Option String) :=
  if d.any (fun p => p.1 == k) then
    d.map (fun p => if p.1 == k then (k, v) else p)
  else d ++ [(k, v)]

/-- Accumulator of the login-form loop of `_do_login` (session.py lines
257-272): the POST dict and the two found-flags. -/
structure LoginAcc where
  data : List (String × Option String)
  userFound : Bool
  passFound : Bool
deriving DecidableEq, Repr

/-- One iteration of the `_do_login` input loop. -/
def loginStep (creds : Creds) (acc : LoginAcc) (i : FormInput) : LoginAcc :=
  match i.name with
  | none => acc
  | some n =>
    if n == "" then acc
    else if strContains n "username" then
      { data := dictInsert acc.data n (some creds.username)
        userFound := true, passFound := acc.passFound }
    else if strContains n "password" then
      { data := dictInsert acc.data n (some creds.password)
        userFound := acc.userFound, passFound := true }
    else { acc with data := dictInsert acc.data n i.value }

/-- The whole `_do_login` input loop. -/
def buildLoginData (creds : Creds) (inputs : List FormInput) : LoginAcc :=
  inputs.foldl (loginStep creds) ⟨[], false, false⟩

/-- `_do_login` up to (not including) the POST: empty-form check, field
substitution, missing-username/password check (session.py lines 250-276). -/
def loginPostData (creds : Creds) (inputs : List FormInput) :
    Except PyErr (List (String × Option String)) :=
  if inputs.isEmpty then .error (.authError "Could not find login form inputs.")
  else
    let acc := buildLoginData creds inputs
    if acc.userFound && acc.passFound then .ok acc.data
    else .error (.authError "Login form parsing failed: Missing username or password field.")

/-- Accumulator of the verification-form loop of `_complete_verification`
(session.py lines 319-329): the POST dict and the name of the field whose
name contains `_security_question_answer` (which is recorded, not copied). -/
structure VerifAcc where
  data : List (String × Option String)
  secField : Option String
deriving DecidableEq, Repr

/-- One iteration of the `_complete_verification` input loop. -/
def verifStep (acc : VerifAcc) (i : FormInput) : VerifAcc :=
  match i.name with
  | none => acc
  | some n =>
    if n == "" then acc
    else if strContains n "_security_question_answer" then { acc with secField := some n }
    else { acc with data := dictInsert acc.data n i.value }

/-- The whole `_complete_verification` input loop. -/
def buildVerifData (inputs : List FormInput) : VerifAcc :=
  inputs.foldl verifStep ⟨[], none⟩

/-! ### The login ceremony (`session.py`) -/

/-- `_complete_verification` (session.py lines 302-362): pick the primary
or fallback form inputs, find the security-question field, format the
secret (string secrets: `replace('/', '-')`; the `datetime.date` branch is
outside the string-typed model), set it, POST to the verification page's
own URL and return that response. -/
def _complete_verification (creds : Creds) (page : Response) (s : HState) :
    Except PyErr Response × HState :=
  let inputs :=
    if page.verifFormInputs.isEmpty then page.verifFormFallbackInputs
    else page.verifFormInputs
  if inputs.isEmpty then
    (.error (.authError "Could not find verification form fields"), s)
  else
    let acc := buildVerifData inputs
    match acc.secField with
    | none =>
      (.error (.authError "Could not find security question field in verification form"), s)
    | some fld =>
      match creds.mfa with
      | none =>
        (.error (.authError "Birth date is required for verification but not provided in credentials"), s)
      | some mfa =>
        if mfa == "" then
          (.error (.authError "Birth date is required for verification but not provided in credentials"), s)
        else
          let _posted := dictInsert acc.data fld (some (pyReplaceSlashDash mfa))
          match popScript s with
          | (.error e, s1) => (.error e, s1)
          | (.ok r, s1) =>
            match raiseForStatus r with
            | .error e => (.error e, s1)
            | .ok _ => (.ok r, s1)

/-- The body `'{"google2fa":"%s"}' % code` of the 2FA POST. -/
def twoFaBody (code : String) : String :=
  "\x7b\"google2fa\":\"" ++ code ++ "\"\x7d"

/-- The 2FA mechanism gate of `_complete_verification_2fa` (session.py
lines 377-379): `json.loads` the config body, `.get` the
`possibleAuthenticationMechanisms` entry (default `[]`), test
`'googleAuthenticator' in` it. -/
def twoFaMechAllowed (text : String) : Except PyErr Bool :=
  match jsonLoads text with
  | .error m => .error (.jsonDecodeError m)
  | .ok (.obj flds) =>
    pyIn "googleAuthenticator"
      (((flds.find? (fun p => p.1 == "possibleAuthenticationMechanisms")).map Prod.snd).getD
        (.arr []))
  | .ok _ => .error (.otherError "AttributeError: object has no attribute get")

/-- `_complete_verification_2fa` (session.py lines 366-393): GET the 2FA
config endpoint, gate on the supported mechanisms, then POST the TOTP
code.  `totpCode` stands for `pyotp.TOTP(self.creds.mfa).now()`, whose
value depends on the wall clock and is therefore a parameter of the
model; the argument response of the source method is unused there and
omitted here. -/
def _complete_verification_2fa (_creds : Creds) (totpCode : String) (s : HState) :
    Except PyErr Response × HState :=
  match popScript s with
  | (.error e, s1) => (.error e, s1)
  | (.ok r, s1) =>
    match raiseForStatus r with
    | .error e => (.error e, s1)
    | .ok _ =>
      if r.status == 200 then
        match twoFaMechAllowed r.text with
        | .error e => (.error e, s1)
        | .ok allowed =>
          if allowed then
            let _body := twoFaBody totpCode
            match popScript s1 with
            | (.error e, s2) => (.error e, s2)
            | (.ok r2, s2) =>
              match raiseForStatus r2 with
              | .error e => (.error e, s2)
              | .ok _ => (.ok r2, s2)
          else
            (.error (.authError
              "Could not find supported 2fa verification method, only googleAuthenticator is supported"), s1)
      else
        (.error (.authError "Could not find supported 2fa API endpoint"), s1)

/-- `_do_login` (session.py lines 244-300): build the POST body from the
login form, POST it back to the login page's URL, then branch on the
resulting final URL into verification, 2FA, or done. -/
def _do_login (creds : Creds) (totpCode : String) (loginPage : Response) (s : HState) :
    Except PyErr Response × HState :=
  match loginPostData creds loginPage.loginFormInputs with
  | .error e => (.error e, s)
  | .ok _data =>
    match popScript s with
    | (.error e, s1) => (.error e, s1)
    | (.ok r, s1) =>
      match raiseForStatus r with
      | .error e => (.error e, s1)
      | .ok _ =>
        if strEndsWith r.url "/account-verification" then _complete_verification creds r s1
        else if strEndsWith r.url "/2fa" then _complete_verification_2fa creds totpCode s1
        else (.ok r, s1)

/-- The final inspection of `_try_login` (session.py lines 178-185),
applied to the response returned by `_do_login` /
`_complete_verification` / `_complete_verification_2fa`. -/
def finalRespCheck (final : Response) : Except PyErr Unit :=
  if endsWithAuth final.url then
    .error (.authError ("Authentication failed, ended on " ++ final.url))
  else if final.status ≠ 200 then
    .error (.authError
      ("Authentication failed, status " ++ toString final.status ++ " at " ++ final.url))
  else .ok ()

/-- Feed a handler's final response into `finalRespCheck`. -/
def finalize : Except PyErr Response × HState → Except PyErr Unit × HState
  | (.error e, s) => (.error e, s)
  | (.ok r, s) => (finalRespCheck r, s)

/-- The body of the `try` block of `_try_login` (session.py lines
150-208): GET `/login`, branch on the final URL, run the matching
handler, then apply the final inspection — except that a redirect to a
non-auth URL returns immediately, with no final inspection. -/
def loginFlow (creds : Creds) (totpCode : String) (s : HState) :
    Except PyErr Unit × HState :=
  match popScript s with
  | (.error e, s1) => (.error e, s1)
  | (.ok r, s1) =>
    match raiseForStatus r with
    | .error e => (.error e, s1)
    | .ok _ =>
      if strEndsWith r.url "/login" then
        finalize (_do_login creds totpCode r s1)
      else if strEndsWith r.url "/account-verification" then
        finalize (_complete_verification creds r s1)
      else if strEndsWith r.url "/2fa" then
        finalize (_complete_verification_2fa creds totpCode s1)
      else (.ok (), s1)

/-- The `except` clause of `_try_login` (session.py lines 210-216):
everything that is not a `SmartSchoolAuthenticationError` is wrapped
into one carrying the original cause. -/
def wrapFlowError (e : PyErr) : PyErr :=
  if isAuthErrorB e then e
  else .wrappedAuthError
    ("An unexpected error occurred during authentication: " ++ pyStr e) e

/-- `loginFlow` with its `except` clause applied. -/
def wrappedLoginFlow (creds : Creds) (totpCode : String) (s : HState) :
    Except PyErr Unit × HState :=
  match loginFlow creds totpCode s with
  | (.error e, s') => (.error (wrapFlowError e), s')
  | (.ok _, s') => (.ok (), s')

/-- `_try_login` (session.py lines 112-216): the probe `GET /` and its
short-circuits, then the wrapped login/verification flow. -/
def _try_login (creds : Creds) (totpCode : String) (s : HState) :
    Except PyErr Unit × HState :=
  match popScript s with
  | (.error e, s1) =>
    if isRequestExceptionB e then wrappedLoginFlow creds totpCode s1
    else (.error e, s1)
  | (.ok r, s1) =>
    if 400 ≤ r.status then wrappedLoginFlow creds totpCode s1
    else if endsWithAuth r.url then wrappedLoginFlow creds totpCode s1
    else if r.status == 200 then (.ok (), s1)
    else wrappedLoginFlow creds totpCode s1

/-! ### Decorated request gateway (`_handle_cookies_and_login`, `get`,
`post`, `json`) -/

/-- The decorated `Smartschool.get`: the `_handle_cookies_and_login`
precondition (credentials present, `_try_login`), then the real request
(to `create_url(path)`). -/
def decorated_get (creds : Option Creds) (totpCode : String) (_path : String)
    (s : HState) : Except PyErr Response × HState :=
  match creds with
  | none => (.error (.runtimeError "Smartschool instance must have valid credentials."), s)
  | some c =>
    match _try_login c totpCode s with
    | (.error e, s1) => (.error e, s1)
    | (.ok _, s1) => popScript s1

/-- The decorated `Smartschool.post`, same precondition. -/
def decorated_post (creds : Option Creds) (totpCode : String) (_path _body : String)
    (s : HState) : Except PyErr Response × HState :=
  match creds with
  | none => (.error (.runtimeError "Smartschool instance must have valid credentials."), s)
  | some c =>
    match _try_login c totpCode s with
    | (.error e, s1) => (.error e, s1)
    | (.ok _, s1) => popScript s1

/-- The decode loop of `Smartschool.json` (session.py lines 435-445):
`while isinstance(json_, str): if not json_: return {}; json_ =
json.loads(json_)`.  The Python loop is unbounded; the model indexes it
with explicit fuel, and every theorem about it quantifies over
sufficient fuel. -/
def jsonDecodeLoop : Nat → String → Except PyErr JValue
  | 0, _ => .error (.otherError "model: loop fuel exhausted")
  | fuel + 1, s =>
    if s == "" then .ok (.obj [])
    else
      match jsonLoads s with
      | .error m => .error (.jsonDecodeError m)
      | .ok (.str t) => jsonDecodeLoop fuel t
      | .ok v => .ok v

/-! ### Characterization helpers (spec side) -/

/-- The value `_do_login` stores for a form input named `n`: the identity
for names containing `username`, the password for remaining names
containing `password`, the extracted default value otherwise. -/
def substValue (creds : Creds) (n : String) (i : FormInput) : Option String :=
  if strContains n "username" then some creds.username
  else if strContains n "password" then some creds.password
  else i.value

/-- A form input with a truthy name containing `username`. -/
def isUserInput (i : FormInput) : Bool :=
  match i.name with
  | none => false
  | some n => !(n == "") && strContains n "username"

/-- A form input with a truthy name that reaches and passes the
`password` test of `_do_login` (i.e. does not contain `username`). -/
def isPassInput (i : FormInput) : Bool :=
  match i.name with
  | none => false
  | some n => !(n == "") && !strContains n "username" && strContains n "password"

/-! ### Concrete scenario fixtures -/

def c2Creds : Creds :=
  { username := "jo", password := "pw", main_url := "school.be", mfa := some "2008-05-01" }

def c2Probe : Response := { status := 200, url := "https://school.be/login", text := "" }

def c2LoginPage : Response :=
  { status := 200, url := "https://school.be/login", text := ""
    loginFormInputs := [
      { name := some "login_form[_username]", value := some "" },
      { name := some "login_form[_password]", value := some "" },
      { name := some "login_form[_token]", value := some "tok123" }] }

def c2PostResp : Response :=
  { status := 200, url := "https://school.be/account-verification", text := ""
    verifFormInputs := [
      { name := some "account_verification_form[_security_question_answer]", value := some "" },
      { name := some "account_verification_form[_token]", value := some "tok456" }] }

def c2VerifResp : Response := { status := 200, url := "https://school.be/", text := "" }

def c2wCreds : Creds :=
  { username := "an", password := "s3cret", main_url := "other.school.be"
    mfa := some "2008-05-01" }

def c2wProbe : Response := { status := 200, url := "https://other.school.be/login", text := "" }

def c2wLoginPage : Response :=
  { status := 200, url := "https://other.school.be/login", text := ""
    loginFormInputs := [
      { name := some "login_form[_username]", value := some "" },
      { name := some "login_form[_password]", value := some "" }] }

def c2wPostResp : Response :=
  { status := 200, url := "https://other.school.be/account-verification", text := ""
    verifFormInputs := [
      { name := some "account_verification_form[_security_question_answer]", value := some "" }] }

def c2wVerifResp : Response :=
  { status := 200, url := "https://other.school.be/", text := "" }

def c1Creds : Creds :=
  { username := "maya", password := "pw1", main_url := "a.school.be", mfa := some "2001-02-03" }

def c1Probe : Response := { status := 200, url := "https://a.school.be/login", text := "" }

def c1LoginPage : Response :=
  { status := 200, url := "https://a.school.be/login", text := ""
    loginFormInputs := [
      { name := some "login_form[_username]", value := some "" },
      { name := some "login_form[_password]", value := some "" },
      { name := some "login_form[_token]", value := some "t1" }] }

def c1PostResp : Response := { status := 200, url := "https://a.school.be/", text := "" }

def c1wCreds : Creds :=
  { username := "lena", password := "pw2", main_url := "b.school.be", mfa := none }

def c1wProbe : Response := { status := 302, url := "https://b.school.be/login", text := "" }

def c1wLoginPage : Response :=
  { status := 200, url := "https://b.school.be/login", text := ""
    loginFormInputs := [
      { name := some "login_form[_username]", value := some "" },
      { name := some "login_form[_password]", value := some "" }] }

def c1wPostResp : Response := { status := 200, url := "https://b.school.be/index", text := "" }

def c4Creds : Creds :=
  { username := "tom", password := "pw3", main_url := "c.school.be", mfa := none }

def c4Probe : Response := { status := 200, url := "https://c.school.be/login", text := "" }

def c4wCreds : Creds :=
  { username := "kim", password := "pw4", main_url := "d.school.be", mfa := none }

def c4wProbe : Response := { status := 200, url := "https://d.school.be/2fa", text := "" }

def c3Creds : Creds :=
  { username := "ID", password := "PW", main_url := "e.school.be", mfa := none }

def c3Inputs : List FormInput :=
  [ { name := some "login_form[_username]", value := some "" },
    { name := some "login_form[_password]", value := some "" },
    { name := some "x_username_password", value := some "d" } ]

def c3Data : List (String × Option String) :=
  [ ("login_form[_username]", some "ID"),
    ("login_form[_password]", some "PW"),
    ("x_username_password", some "ID") ]

def c3wCreds : Creds :=
  { username := "ID2", password := "PW2", main_url := "f.school.be", mfa := none }

def c3wInputs : List FormInput :=
  [ { name := some "form[_username]", value := some "" },
    { name := some "form[_password]", value := some "" },
    { name := some "extra", value := some "x" } ]

def c6wCreds : Creds :=
  { username := "eva", password := "pw5", main_url := "g.school.be", mfa := none }

def c6wResp : Response := { status := 200, url := "https://g.school.be/index", text := "" }

def c7wCreds : Creds :=
  { username := "leo", password := "pw6", main_url := "h.school.be", mfa := some "BASE32SECRET" }

def c7wResp : Response :=
  { status := 200, url := "https://h.school.be/2fa/api/v1/config"
    text := "\x7b\"possibleAuthenticationMechanisms\":[\"sms\"]\x7d" }

/-! ### Lemmas about stripping -/

theorem dropWhile_idem (p : Char → Bool) (l : List Char) :
    (l.dropWhile p).dropWhile p = l.dropWhile p := by
  induction l with
  | nil => rfl
  | cons a t ih =>
    by_cases h : p a
    · simp [List.dropWhile, h, ih]
    · simp [List.dropWhile, h]

theorem head_false_of_dropWhile_eq_self (p : Char → Bool) (a : Char) (x : List Char)
    (h : (a :: x).dropWhile p = a :: x) : p a = false := by
  by_cases hpa : p a
  · rw [List.dropWhile_cons_of_pos hpa] at h
    have hlen : (x.dropWhile p).length ≤ x.length := (List.dropWhile_suffix p).length_le
    rw [h] at hlen
    simp at hlen
  · simpa using hpa

theorem dropWhile_eq_self_of_prefix (p : Char → Bool) (g f : List Char)
    (hpre : g <+: f) (hf : f.dropWhile p = f) : g.dropWhile p = g := by
  cases g with
  | nil => rfl
  | cons a t =>
    obtain ⟨rest, hrest⟩ := hpre
    subst hrest
    have hpa : p a = false := head_false_of_dropWhile_eq_self p a (t ++ rest) hf
    simp [List.dropWhile_cons, hpa]

theorem stripChars_idem (l : List Char) :
    stripChars (stripChars l) = stripChars l := by
  unfold stripChars
  generalize hf : l.dropWhile Char.isWhitespace = f
  set g := (f.reverse.dropWhile Char.isWhitespace).reverse with hg
  have hsuf : g.reverse <:+ f.reverse := by
    rw [hg, List.reverse_reverse]
    exact List.dropWhile_suffix _
  have hpre : g <+: f := List.reverse_suffix.mp hsuf
  have hffront : f.dropWhile Char.isWhitespace = f := by
    rw [← hf]; exact dropWhile_idem _ l
  have hgfront : g.dropWhile Char.isWhitespace = g :=
    dropWhile_eq_self_of_prefix _ g f hpre hffront
  have hgback : g.reverse.dropWhile Char.isWhitespace = g.reverse := by
    rw [hg, List.reverse_reverse]
    exact dropWhile_idem _ f.reverse
  rw [hgfront, hgback, List.reverse_reverse]

theorem pyStrip_idem (s : String) : pyStrip (pyStrip s) = pyStrip s := by
  simp [pyStrip, stripChars_idem]

/-! ### Claim C5: credential validation -/

/-- C5: `validate()` trims all four required fields (username, password,
main_url, verification secret) and either returns with all four non-empty
trimmed strings, or raises a configuration error whose message names every
blank field, not only the first one found. -/
theorem validateCredentials_c5 (u p m b : Option String) :
    (∀ r, validateCredentials u p m b = .ok r →
      (r.1 ≠ "" ∧ r.2.1 ≠ "" ∧ r.2.2.1 ≠ "" ∧ r.2.2.2 ≠ "") ∧
      (pyStrip r.1 = r.1 ∧ pyStrip r.2.1 = r.2.1 ∧
       pyStrip r.2.2.1 = r.2.2.1 ∧ pyStrip r.2.2.2 = r.2.2.2) ∧
      r = (pyStrip (u.getD ""), pyStrip (p.getD ""), pyStrip (m.getD ""),
           pyStrip (b.getD ""))) ∧
    (∀ l, validateCredentials u p m b = .error l →
      l ≠ [] ∧
      ("username" ∈ l ↔ pyStrip (u.getD "") = "") ∧
      ("password" ∈ l ↔ pyStrip (p.getD "") = "") ∧
      ("main_url" ∈ l ↔ pyStrip (m.getD "") = "") ∧
      ("birth_date" ∈ l ↔ pyStrip (b.getD "") = "")) := by
  by_cases hu : pyStrip (u.getD "") = "" <;>
    by_cases hp : pyStrip (p.getD "") = "" <;>
      by_cases hm : pyStrip (m.getD "") = "" <;>
        by_cases hb : pyStrip (b.getD "") = "" <;>
          simp [validateCredentials, hu, hp, hm, hb, pyStrip_idem]

/-- Witness for C5 at a concrete input with two blank fields. -/
theorem validateCredentials_c5_witness :
    ("password" ∈ (["password", "birth_date"] : List String)) ↔
      pyStrip ((some "  ").getD "") = "" :=
  ((validateCredentials_c5 (some " jo ") (some "  ") (some "school.be") none).2
    ["password", "birth_date"] rfl).2.2.1

/-! ### Claim C10: URL construction -/

/-- C10: for every endpoint string `p`, `create_url(p)` equals
`"https://" + main_url + "/" + p` with all leading `'/'` characters of `p`
removed; `create_url(p) = create_url("/" + p)` for every `p`, and the
result always starts with the base URL derived from the host. -/
theorem create_url_c10 (main_url p : String) :
    create_url main_url p =
      "https://" ++ main_url ++ "/" ++ String.mk (p.data.dropWhile (fun c => c == '/')) ∧
    create_url main_url p = create_url main_url ("/" ++ p) ∧
    ∃ rest, create_url main_url p = baseUrl main_url ++ rest := by
  refine ⟨rfl, ?_, ⟨"/" ++ pyLstripSlash p, ?_⟩⟩
  · have hdata : ("/" ++ p).data = '/' :: p.data := by
      simp
    simp [create_url, pyLstripSlash, hdata, List.dropWhile]
  · simp [create_url, baseUrl, String.append_assoc]

/-! ### Claim C6: probe short-circuit -/

/-- C6: if the initial probe `GET /` returns status 200 with a final URL
that does not end in `/login`, `/account-verification`, or `/2fa`,
`_try_login` returns success immediately and performs zero additional
HTTP requests in that invocation. -/
theorem probe_short_circuit_c6 (creds : Creds) (totp : String) (r : Response)
    (rest : List (Except String Response)) (n : Nat)
    (hst : r.status = 200) (hurl : endsWithAuth r.url = false) :
    _try_login creds totp ⟨.ok r :: rest, n⟩ = (.ok (), ⟨rest, n + 1⟩) := by
  simp [_try_login, popScript, hst, hurl]

/-- Witness for C6: a warm session is recognised on the first request. -/
theorem probe_short_circuit_c6_witness :
    _try_login c6wCreds "000000" ⟨[.ok c6wResp], 0⟩ = (.ok (), ⟨[], 0 + 1⟩) :=
  probe_short_circuit_c6 c6wCreds "000000" c6wResp [] 0 rfl (by decide)

/-! ### Claim C9: requests without credentials -/

/-- C9: for every path and body, calling the decorated `get()` or
`post()` with `creds = None` raises a `RuntimeError` before any
authentication attempt or HTTP request is made (the transport state is
returned untouched: nothing was consumed, nothing counted). -/
theorem requests_need_creds_c9 (totp path body : String) (s : HState) :
    decorated_get none totp path s =
      (.error (.runtimeError "Smartschool instance must have valid credentials."), s) ∧
    decorated_post none totp path body s =
      (.error (.runtimeError "Smartschool instance must have valid credentials."), s) :=
  ⟨rfl, rfl⟩

/-! ### Claim C7: the 2FA mechanism gate -/

/-- C7: if the 2FA configuration endpoint answers 200 with a JSON body
whose `possibleAuthenticationMechanisms` does not contain
`googleAuthenticator`, `_complete_verification_2fa` raises an
`AuthenticationError` for every TOTP code alike (the code plays no role)
and consumes only the config GET: the rest of the script — where the
verification POST would go — is untouched. -/
theorem twofa_gate_c7 (creds : Creds) (totp : String) (r : Response)
    (rest : List (Except String Response)) (n : Nat)
    (h200 : r.status = 200)
    (hgate : twoFaMechAllowed r.text = .ok false) :
    _complete_verification_2fa creds totp ⟨.ok r :: rest, n⟩ =
      (.error (.authError
        "Could not find supported 2fa verification method, only googleAuthenticator is supported"),
       ⟨rest, n + 1⟩) := by
  simp [_complete_verification_2fa, popScript, raiseForStatus, h200, hgate]

/-- Witness for C7: a config body offering only `["sms"]`. -/
theorem twofa_gate_c7_witness :
    _complete_verification_2fa c7wCreds "123456" ⟨[.ok c7wResp], 0⟩ =
      (.error (.authError
        "Could not find supported 2fa verification method, only googleAuthenticator is supported"),
       ⟨[], 0 + 1⟩) :=
  twofa_gate_c7 c7wCreds "123456" c7wResp [] 0 rfl rfl

/-! ### Claim C8: JSON double decoding -/

/-- C8: the decode loop of `Smartschool.json` returns an empty mapping on
an empty body; on a non-empty body it decodes once and returns any
non-string result; while the intermediate result is still a string it
decodes again (so a doubly encoded object decodes to that object). -/
theorem json_decode_loop_c8 (s : String) :
    (∀ fuel, s = "" → jsonDecodeLoop (fuel + 1) s = .ok (.obj [])) ∧
    (∀ fuel v, s ≠ "" → jsonLoads s = .ok v → (∀ t, v ≠ .str t) →
      jsonDecodeLoop (fuel + 1) s = .ok v) ∧
    (∀ fuel t, s ≠ "" → jsonLoads s = .ok (.str t) →
      jsonDecodeLoop (fuel + 1) s = jsonDecodeLoop fuel t) ∧
    (∀ fuel t v, s ≠ "" → t ≠ "" → jsonLoads s = .ok (.str t) →
      jsonLoads t = .ok v → (∀ u, v ≠ .str u) →
      jsonDecodeLoop (fuel + 2) s = .ok v) := by
  refine ⟨?_, ?_, ?_, ?_⟩
  · intro fuel hs
    subst hs
    simp [jsonDecodeLoop]
  · intro fuel v hs hload hvs
    have hsb : (s == "") = false := by simpa using hs
    cases v with
    | str t => exact absurd rfl (hvs t)
    | null => simp [jsonDecodeLoop, hsb, hload]
    | bool b => simp [jsonDecodeLoop, hsb, hload]
    | num n => simp [jsonDecodeLoop, hsb, hload]
    | arr l => simp [jsonDecodeLoop, hsb, hload]
    | obj l => simp [jsonDecodeLoop, hsb, hload]
  · intro fuel t hs hload
    have hsb : (s == "") = false := by simpa using hs
    simp [jsonDecodeLoop, hsb, hload]
  · intro fuel t v hs ht hload1 hload2 hvs
    have hsb : (s == "") = false := by simpa using hs
    have htb : (t == "") = false := by simpa using ht
    have hstep : jsonDecodeLoop (fuel + 2) s = jsonDecodeLoop (fuel + 1) t := by
      simp [jsonDecodeLoop, hsb, hload1]
    rw [hstep]
    cases v with
    | str u => exact absurd rfl (hvs u)
    | null => simp [jsonDecodeLoop, htb, hload2]
    | bool b => simp [jsonDecodeLoop, htb, hload2]
    | num n => simp [jsonDecodeLoop, htb, hload2]
    | arr l => simp [jsonDecodeLoop, htb, hload2]
    | obj l => simp [jsonDecodeLoop, htb, hload2]

/-- Witness for C8: the doubly encoded body `"{\"a\":1}"` (a JSON string
whose content is the JSON of an object) decodes to that object in two
steps, and the empty body decodes to the empty mapping. -/
theorem json_decode_loop_c8_witness :
    jsonDecodeLoop 2 "\"\x7b\\\"a\\\":1\x7d\"" = .ok (.obj [("a", .num 1)]) ∧
    jsonDecodeLoop 1 "" = .ok (.obj []) :=
  ⟨(json_decode_loop_c8 "\"\x7b\\\"a\\\":1\x7d\"").2.2.2 0 "\x7b\"a\":1\x7d"
      (.obj [("a", .num 1)]) (by decide) (by decide) rfl rfl
      (fun u h => by simp at h),
   (json_decode_loop_c8 "").1 0 rfl⟩

/-! ### Claim C4: exception wrapping in `_try_login` -/

/-- C4 counterexample: a transport-level `RequestException` raised during
the login flow (here: the `GET /login` connection dies) does **not**
propagate unwrapped — `_try_login` wraps it into a
`SmartSchoolAuthenticationError` carrying it as cause. -/
theorem exception_wrapping_c4_counterexample :
    _try_login c4Creds "000000" ⟨[.ok c4Probe, .error "Connection reset by peer"], 0⟩ =
      (.error (.wrappedAuthError
        "An unexpected error occurred during authentication: Connection reset by peer"
        (.transport "Connection reset by peer")), ⟨[], 2⟩) ∧
    isRequestExceptionB (.transport "Connection reset by peer") = true := by
  exact ⟨by decide, by decide⟩

/-- C4 (amended): every exception raised inside the login/verification
flow reaches the caller as `wrapFlowError` of it: an exception that is
not already a `SmartSchoolAuthenticationError` — transport errors
included — is wrapped into one carrying the original cause, and only
pre-existing `SmartSchoolAuthenticationError`s pass through unwrapped. -/
theorem exception_wrapping_c4 (creds : Creds) (totp : String) (p : Response)
    (rest : List (Except String Response)) (n : Nat) (e : PyErr) (s' : HState)
    (hp1 : p.status < 400) (hp2 : endsWithAuth p.url = true)
    (hflow : loginFlow creds totp ⟨rest, n + 1⟩ = (.error e, s')) :
    _try_login creds totp ⟨.ok p :: rest, n⟩ = (.error (wrapFlowError e), s') ∧
    (isAuthErrorB e = true → wrapFlowError e = e) ∧
    (isAuthErrorB e = false →
      wrapFlowError e = .wrappedAuthError
        ("An unexpected error occurred during authentication: " ++ pyStr e) e) := by
  have hp400 : ¬ (400 ≤ p.status) := by omega
  refine ⟨?_, ?_, ?_⟩
  · simp [_try_login, popScript, wrappedLoginFlow, hp400, hp2, hflow]
  · intro h; simp [wrapFlowError, h]
  · intro h; simp [wrapFlowError, h]

/-- Witness for C4: the probe routes into the flow, whose `GET /login`
raises a transport error; the result is the wrapped error. -/
theorem exception_wrapping_c4_witness :
    _try_login c4wCreds "000000" ⟨.ok c4wProbe :: [.error "boom"], 0⟩ =
      (.error (wrapFlowError (.transport "boom")), ⟨[], 2⟩) ∧
    (isAuthErrorB (.transport "boom") = true →
      wrapFlowError (.transport "boom") = .transport "boom") ∧
    (isAuthErrorB (.transport "boom") = false →
      wrapFlowError (.transport "boom") = .wrappedAuthError
        ("An unexpected error occurred during authentication: " ++ pyStr (.transport "boom"))
        (.transport "boom")) :=
  exception_wrapping_c4 c4wCreds "000000" c4wProbe [.error "boom"] 0
    (.transport "boom") ⟨[], 2⟩ (by decide) (by decide) (by decide)

/-! ### Claim C1: the final check -/

/-- C1 counterexample: a cold login whose POST lands on `/` with status
200 is declared successful after exactly 3 requests (probe, login GET,
login POST) with the script exhausted — no additional `GET /` is issued
for the final check, contrary to the claim's "one more GET". -/
theorem final_check_c1_counterexample :
    _try_login c1Creds "000000" ⟨[.ok c1Probe, .ok c1LoginPage, .ok c1PostResp], 0⟩ =
      (.ok (), ⟨[], 3⟩) := by
  decide

/-- C1 (amended): after a login/verification POST, `_try_login` inspects
that POST's own final response — no additional `GET /` is issued:
success iff its status is 200 and its final URL does not end in
`/login`, `/account-verification`, or `/2fa`; landing on an auth URL
raises an `AuthenticationError` naming the final URL; a non-200 status
elsewhere raises one naming the status and the final URL.  The whole
ceremony outcome is `finalRespCheck` of the POST's response, reached
after exactly 3 round trips for a verification-free login. -/
theorem final_check_c1 (final : Response) :
    (finalRespCheck final = .ok () ↔
      (endsWithAuth final.url = false ∧ final.status = 200)) ∧
    (endsWithAuth final.url = true →
      finalRespCheck final =
        .error (.authError ("Authentication failed, ended on " ++ final.url))) ∧
    (endsWithAuth final.url = false → final.status ≠ 200 →
      finalRespCheck final =
        .error (.authError
          ("Authentication failed, status " ++ toString final.status ++ " at " ++ final.url))) ∧
    (∀ (creds : Creds) (totp : String) (p l : Response)
        (rest : List (Except String Response)) (n : Nat),
      p.status < 400 → endsWithAuth p.url = true →
      l.status < 400 → strEndsWith l.url "/login" = true →
      l.loginFormInputs.isEmpty = false →
      (buildLoginData creds l.loginFormInputs).userFound = true →
      (buildLoginData creds l.loginFormInputs).passFound = true →
      final.status < 400 →
      strEndsWith final.url "/account-verification" = false →
      strEndsWith final.url "/2fa" = false →
      _try_login creds totp ⟨[.ok p, .ok l, .ok final] ++ rest, n⟩ =
        (finalRespCheck final, ⟨rest, n + 3⟩)) := by
  refine ⟨?_, ?_, ?_, ?_⟩
  · constructor
    · intro h
      by_cases ha : endsWithAuth final.url <;>
        by_cases hs : final.status = 200 <;>
          simp [finalRespCheck, ha, hs] at h ⊢
    · rintro ⟨ha, hs⟩
      simp [finalRespCheck, ha, hs]
  · intro ha
    simp [finalRespCheck, ha]
  · intro ha hs
    simp [finalRespCheck, ha, hs]
  · intro creds totp p l rest n hp1 hp2 hl1 hl2 hl3 hl4 hl5 hf1 hf2 hf3
    have hp400 : ¬ (400 ≤ p.status) := by omega
    have hl400 : ¬ (400 ≤ l.status) := by omega
    have hf400 : ¬ (400 ≤ final.status) := by omega
    by_cases ha : endsWithAuth final.url <;>
      by_cases hs : final.status = 200 <;>
        simp [_try_login, wrappedLoginFlow, loginFlow, _do_login, loginPostData,
          finalize, finalRespCheck, wrapFlowError, isAuthErrorB, popScript,
          raiseForStatus, hp400, hl400, hf400, hp2, hl2, hl3, hl4, hl5,
          hf2, hf3, ha, hs]

/-- Witness for C1: a concrete verification-free login whose ceremony
outcome is the final inspection of the login POST's response. -/
theorem final_check_c1_witness :
    _try_login c1wCreds "000000"
        ⟨[.ok c1wProbe, .ok c1wLoginPage, .ok c1wPostResp] ++ [], 0⟩ =
      (finalRespCheck c1wPostResp, ⟨[], 0 + 3⟩) :=
  (final_check_c1 c1wPostResp).2.2.2 c1wCreds "000000" c1wProbe c1wLoginPage [] 0
    (by decide) (by decide) (by decide) (by decide) (by decide) (by decide)
    (by decide) (by decide) (by decide) (by decide)

/-! ### Claim C2: round trips of the cold verification login -/

/-- C2 counterexample: the cold-login-with-verification scenario of the
claim (probe → `/login`; login form with the two credential fields;
POST → `/account-verification`; verification form with the
security-question field; secret `"2008-05-01"`; verification POST → `/`
with 200) ends `Authenticated` after exactly **4** consumed HTTP round
trips with the script exhausted — a fifth request, the claim's separate
final check, is never issued. -/
theorem cold_login_roundtrips_c2_counterexample :
    _try_login c2Creds "000000"
        ⟨[.ok c2Probe, .ok c2LoginPage, .ok c2PostResp, .ok c2VerifResp], 0⟩ =
      (.ok (), ⟨[], 4⟩) ∧ (4 : Nat) ≠ 5 := by
  exact ⟨by decide, by decide⟩

/-- C2 (amended): in the cold-login-with-verification scenario the
ceremony returns `Authenticated` after exactly 4 HTTP round trips
(probe, login GET, login POST, verification POST); the final check
inspects the verification POST's own response rather than issuing a
fifth request. -/
theorem cold_login_roundtrips_c2 (creds : Creds) (totp : String)
    (p l q v : Response) (rest : List (Except String Response)) (n : Nat)
    (hp1 : p.status < 400) (hp2 : endsWithAuth p.url = true)
    (hl1 : l.status < 400) (hl2 : strEndsWith l.url "/login" = true)
    (hl3 : l.loginFormInputs.isEmpty = false)
    (hl4 : (buildLoginData creds l.loginFormInputs).userFound = true)
    (hl5 : (buildLoginData creds l.loginFormInputs).passFound = true)
    (hq1 : q.status < 400) (hq2 : strEndsWith q.url "/account-verification" = true)
    (hq3 : q.verifFormInputs.isEmpty = false)
    (hq4 : ∃ fld, (buildVerifData q.verifFormInputs).secField = some fld)
    (hm : ∃ m, creds.mfa = some m ∧ m ≠ "")
    (hv1 : v.status = 200) (hv2 : endsWithAuth v.url = false) :
    _try_login creds totp ⟨[.ok p, .ok l, .ok q, .ok v] ++ rest, n⟩ =
      (.ok (), ⟨rest, n + 4⟩) := by
  obtain ⟨fld, hfld⟩ := hq4
  obtain ⟨m, hmeq, hmne⟩ := hm
  have hp400 : ¬ (400 ≤ p.status) := by omega
  have hl400 : ¬ (400 ≤ l.status) := by omega
  have hq400 : ¬ (400 ≤ q.status) := by omega
  have hv400 : ¬ (400 ≤ v.status) := by omega
  have hmb : (m == "") = false := by simpa using hmne
  simp [_try_login, wrappedLoginFlow, loginFlow, _do_login, loginPostData,
    _complete_verification, finalize, finalRespCheck, popScript, raiseForStatus,
    hp400, hl400, hq400, hv400, hp2, hl2, hl3, hl4, hl5, hq2, hq3, hfld,
    hmeq, hmb, hv1, hv2]

/-- Witness for C2 (amended) at a concrete scenario with the claim's
field names and secret. -/
theorem cold_login_roundtrips_c2_witness :
    _try_login c2wCreds "000000"
        ⟨[.ok c2wProbe, .ok c2wLoginPage, .ok c2wPostResp, .ok c2wVerifResp] ++ [], 0⟩ =
      (.ok (), ⟨[], 0 + 4⟩) :=
  cold_login_roundtrips_c2 c2wCreds "000000" c2wProbe c2wLoginPage c2wPostResp
    c2wVerifResp [] 0 (by decide) (by decide) (by decide) (by decide) (by decide)
    (by decide) (by decide) (by decide) (by decide) (by decide)
    ⟨"account_verification_form[_security_question_answer]", by decide⟩
    ⟨"2008-05-01", rfl, by decide⟩ rfl (by decide)

/-! ### Claim C3: login POST body construction -/

theorem dictInsert_mem (d : List (String × Option String)) (k n : String)
    (w v : Option String) (h : (n, v) ∈ dictInsert d k w) :
    (n = k ∧ v = w) ∨ (n, v) ∈ d := by
  unfold dictInsert at h
  split at h
  · obtain ⟨p, hp, hfp⟩ := List.mem_map.mp h
    by_cases hpk : p.1 == k
    · rw [if_pos hpk] at hfp
      left
      have h1 : k = n ∧ w = v := by
        simpa [Prod.ext_iff] using hfp
      exact ⟨h1.1.symm, h1.2.symm⟩
    · rw [if_neg hpk] at hfp
      right
      rwa [hfp] at hp
  · rcases List.mem_append.mp h with h1 | h2
    · right; exact h1
    · left
      have h2' : n = k ∧ v = w := by
        simpa [Prod.ext_iff] using h2
      exact h2'

theorem buildLoginData_mem (creds : Creds) (inputs : List FormInput) :
    ∀ (acc : LoginAcc) (n : String) (v : Option String),
      (n, v) ∈ (inputs.foldl (loginStep creds) acc).data →
      (n, v) ∈ acc.data ∨
        ∃ i ∈ inputs, i.name = some n ∧ v = substValue creds n i := by
  induction inputs with
  | nil => intro acc n v h; exact .inl h
  | cons i t ih =>
    intro acc n v h
    rw [List.foldl_cons] at h
    rcases ih (loginStep creds acc i) n v h with hacc | ⟨j, hj, hjn, hjv⟩
    · cases hi : i.name with
      | none => left; simpa [loginStep, hi] using hacc
      | some nm =>
        by_cases hne : nm == ""
        · left; simpa [loginStep, hi, hne] using hacc
        · by_cases hu : strContains nm "username"
          · have hm : (n, v) ∈ dictInsert acc.data nm (some creds.username) := by
              simpa [loginStep, hi, hne, hu] using hacc
            rcases dictInsert_mem _ _ _ _ _ hm with ⟨h1, h2⟩ | hmem
            · subst h1
              right
              exact ⟨i, List.mem_cons_self i t, hi, by simp [substValue, hu, h2]⟩
            · left; exact hmem
          · by_cases hpw : strContains nm "password"
            · have hm : (n, v) ∈ dictInsert acc.data nm (some creds.password) := by
                simpa [loginStep, hi, hne, hu, hpw] using hacc
              rcases dictInsert_mem _ _ _ _ _ hm with ⟨h1, h2⟩ | hmem
              · subst h1
                right
                exact ⟨i, List.mem_cons_self i t, hi, by simp [substValue, hu, hpw, h2]⟩
              · left; exact hmem
            · have hm : (n, v) ∈ dictInsert acc.data nm i.value := by
                simpa [loginStep, hi, hne, hu, hpw] using hacc
              rcases dictInsert_mem _ _ _ _ _ hm with ⟨h1, h2⟩ | hmem
              · subst h1
                right
                exact ⟨i, List.mem_cons_self i t, hi, by simp [substValue, hu, hpw, h2]⟩
              · left; exact hmem
    · right; exact ⟨j, List.mem_cons_of_mem i hj, hjn, hjv⟩

theorem buildLoginData_userFound (creds : Creds) (inputs : List FormInput) :
    ∀ acc : LoginAcc, (inputs.foldl (loginStep creds) acc).userFound =
      (acc.userFound || inputs.any isUserInput) := by
  induction inputs with
  | nil => intro acc; simp
  | cons i t ih =>
    intro acc
    rw [List.foldl_cons, ih, List.any_cons]
    cases hi : i.name with
    | none => simp [loginStep, hi, isUserInput]
    | some nm =>
      by_cases hne : nm == "" <;> by_cases hu : strContains nm "username" <;>
        by_cases hpw : strContains nm "password" <;>
          simp [loginStep, hi, isUserInput, hne, hu, hpw, Bool.or_assoc]

theorem buildLoginData_passFound (creds : Creds) (inputs : List FormInput) :
    ∀ acc : LoginAcc, (inputs.foldl (loginStep creds) acc).passFound =
      (acc.passFound || inputs.any isPassInput) := by
  induction inputs with
  | nil => intro acc; simp
  | cons i t ih =>
    intro acc
    rw [List.foldl_cons, ih, List.any_cons]
    cases hi : i.name with
    | none => simp [loginStep, hi, isPassInput]
    | some nm =>
      by_cases hne : nm == "" <;> by_cases hu : strContains nm "username" <;>
        by_cases hpw : strContains nm "password" <;>
          simp [loginStep, hi, isPassInput, hne, hu, hpw, Bool.or_assoc]

/-- C3 counterexample: in a login form that also contains a field named
`x_username_password` — whose name contains both substrings — the POST
body sets that field to the credential **identity**, not the password
(the `elif` gives `username` precedence), so the body does not set every
password-matching field to the password. -/
theorem login_body_c3_counterexample :
    loginPostData c3Creds c3Inputs = .ok c3Data ∧
    ("x_username_password", some "ID") ∈ c3Data ∧
    strContains "x_username_password" "password" = true ∧
    some "ID" ≠ some c3Creds.password := by
  refine ⟨by decide, by decide, by decide, by decide⟩

/-- C3 (amended): in the login POST body, every field whose name contains
`username` is set to the credential identity; every field whose name
contains `password` **but not `username`** is set to the credential
password (`username` matches take precedence); every remaining named
field keeps an extracted default value of an input of that name; and the
POST fails with an `AuthenticationError` exactly when the extracted
input list is empty, no truthy-named input contains `username`, or no
truthy-named input reaches and passes the `password` test. -/
theorem login_body_c3 (creds : Creds) (inputs : List FormInput) :
    (∀ data, loginPostData creds inputs = .ok data →
      ∀ n v, (n, v) ∈ data →
        (strContains n "username" = true → v = some creds.username) ∧
        (strContains n "username" = false → strContains n "password" = true →
          v = some creds.password) ∧
        (strContains n "username" = false → strContains n "password" = false →
          ∃ i ∈ inputs, i.name = some n ∧ v = i.value)) ∧
    (loginPostData creds inputs = .error (.authError "Could not find login form inputs.") ↔
      inputs = []) ∧
    (loginPostData creds inputs =
        .error (.authError "Login form parsing failed: Missing username or password field.") ↔
      (inputs ≠ [] ∧
        (inputs.any isUserInput = false ∨ inputs.any isPassInput = false))) := by
  have hmsg : ("Login form parsing failed: Missing username or password field." : String) ≠
      "Could not find login form inputs." := by decide
  have hUF : (buildLoginData creds inputs).userFound = inputs.any isUserInput := by
    rw [buildLoginData, buildLoginData_userFound]
    simp
  have hPF : (buildLoginData creds inputs).passFound = inputs.any isPassInput := by
    rw [buildLoginData, buildLoginData_passFound]
    simp
  refine ⟨?_, ?_, ?_⟩
  · intro data hdata n v hmem
    have hne : inputs.isEmpty = false := by
      cases inputs with
      | nil => simp [loginPostData] at hdata
      | cons a t => simp
    rw [loginPostData, hne] at hdata
    simp only [Bool.false_eq_true, if_false] at hdata
    by_cases hflags : ((buildLoginData creds inputs).userFound &&
        (buildLoginData creds inputs).passFound) = true
    · rw [if_pos hflags] at hdata
      have hd : (buildLoginData creds inputs).data = data := by
        simpa using hdata
      rw [← hd] at hmem
      rcases buildLoginData_mem creds inputs ⟨[], false, false⟩ n v hmem with hnil | hprov
      · simp at hnil
      · obtain ⟨i, hi, hin, hiv⟩ := hprov
        refine ⟨?_, ?_, ?_⟩
        · intro hu; simp [substValue, hu] at hiv; exact hiv
        · intro hu hpw; simp [substValue, hu, hpw] at hiv; exact hiv
        · intro hu hpw
          exact ⟨i, hi, hin, by simpa [substValue, hu, hpw] using hiv⟩
    · rw [if_neg hflags] at hdata
      exact absurd hdata (by simp)
  · cases inputs with
    | nil => simp [loginPostData]
    | cons a t =>
      simp only [loginPostData, List.isEmpty_cons, Bool.false_eq_true, if_false]
      constructor
      · intro h
        split at h
        · simp at h
        · simp only [Except.error.injEq, PyErr.authError.injEq] at h
          exact absurd h hmsg
      · intro h; simp at h
  · cases inputs with
    | nil =>
      simp [loginPostData]
    | cons a t =>
      simp only [loginPostData, List.isEmpty_cons, Bool.false_eq_true, if_false]
      rw [hUF, hPF] at *
      by_cases hU : (a :: t).any isUserInput <;>
        by_cases hP : (a :: t).any isPassInput <;>
          simp [hU, hP, hUF, hPF]

/-- Witness for C3 (amended): the untouched extra field of a concrete
form keeps its extracted value. -/
theorem login_body_c3_witness :
    ∃ i ∈ c3wInputs, i.name = some "extra" ∧ some "x" = i.value :=
  (((login_body_c3 c3wCreds c3wInputs).1
      ((buildLoginData c3wCreds c3wInputs).data) (by decide)
      "extra" (some "x") (by decide)).2.2 (by decide) (by decide))
